import Mathlib

/-
Verification of the dain-STONKS-service market-data service.

The development shallowly embeds the three near-duplicate TypeScript variants
of the service:
  * `src/stonks/src/index.ts`   - the "stonks" variant (raw UI-node objects),
  * `src/unnamed/part_000`      - the builder variant (`@dainprotocol/utils` builders),
  * `src/unnamed/part_001`      - the previous-close variant (table commented out).

JavaScript numbers are modelled as rationals (`ℚ`); `x.toFixed(2)`,
`parseFloat`, `toLocaleString`, and the `??` / truthiness operators are given
explicit executable models below.  UI nodes are modelled structurally as a
closed inductive (`UINode`) instead of `\x7btype, uiData: JSON.stringify(...)\x7d`
pairs; the serialized `uiData` payloads are represented by their structured
content, which is what every claim inspects.

Pieces of the framework that live in `@dainprotocol/service-sdk` /
`@dainprotocol/utils` rather than under `src/` (the dispatcher's
failure-to-envelope conversion and the Card/Table/Alert UI builders) are
modelled from the specification; each such definition carries a doc comment
beginning `Modelled from the spec:`.
-/

namespace Stonks

/-! JavaScript primitive models: decimal rendering and parsing. -/

/-- The character for a single decimal digit `d < 10` (JS digit rendering). -/
def digitChar (d : ℕ) : Char := Char.ofNat (48 + d)

/-- Big-endian decimal digit characters of `n`, with `fuel` bounding recursion
depth; returns `[]` once `n = 0`. -/
def natCharsAux : ℕ → ℕ → List Char
  | 0, _ => []
  | fuel + 1, n => if n = 0 then [] else natCharsAux fuel (n / 10) ++ [digitChar (n % 10)]

/-- Big-endian decimal digit characters of `n` (JS `String(n)` for naturals). -/
def natChars (n : ℕ) : List Char := if n = 0 then ['0'] else natCharsAux (n + 1) n

/-- Two-digit zero-padded rendering of `n < 100` (the fractional part of
`toFixed(2)`). -/
def pad2Chars (n : ℕ) : List Char := (if n < 10 then ['0'] else []) ++ natChars n

/-- Reads a big-endian list of decimal digit characters back to a natural
number (the digit-consuming core of JS `parseFloat`). -/
def digitsToNat (cs : List Char) : ℕ :=
  cs.foldl (fun acc c => 10 * acc + (c.toNat - 48)) 0

/-- Inserts a thousands separator every three characters of a reversed digit
list (core of JS `toLocaleString` grouping). -/
def groupRev : List Char → List Char
  | a :: b :: c :: d :: rest => a :: b :: c :: ',' :: groupRev (d :: rest)
  | l => l

/-- Comma-grouping of a big-endian digit list, e.g. `1000000 ↦ 1,000,000`. -/
def groupThousands (ds : List Char) : List Char := (groupRev ds.reverse).reverse

/-- JS `n.toLocaleString()` for a natural number: comma-grouped decimal. -/
def natToLocaleString (n : ℕ) : String := ⟨groupThousands (natChars n)⟩

/-- The integer number of hundredths selected by JS `x.toFixed(2)`: per the
ECMAScript algorithm the sign is split off and the magnitude is rounded to the
nearest hundredth with ties away from zero. -/
def toFixed2Units (x : ℚ) : ℤ :=
  if x < 0 then -⌊-x * 100 + 1 / 2⌋ else ⌊x * 100 + 1 / 2⌋

/-- Character rendering `"I.DD"` of a magnitude of `mag` hundredths. -/
def fixed2Chars (mag : ℕ) : List Char :=
  natChars (mag / 100) ++ '.' :: pad2Chars (mag % 100)

/-- JS `x.toFixed(2)`: signed fixed-point rendering with two fraction digits.
(The model is exact on rationals; JS binary-double artifacts are out of scope.) -/
def toFixed2 (x : ℚ) : String :=
  ⟨(if x < 0 then ['-'] else []) ++ fixed2Chars (toFixed2Units x).natAbs⟩

/-- The numeric value denoted by the string `toFixed2 x` — i.e. what JS
`parseFloat(x.toFixed(2))` (or `Number(...)`) evaluates to. -/
def toFixed2Val (x : ℚ) : ℚ := (toFixed2Units x : ℚ) / 100

/-- JS `x.toLocaleString(undefined, \x7bminimumFractionDigits: 2,
maximumFractionDigits: 2\x7d)`: like `toFixed(2)` but with a comma-grouped
integer part. -/
def toLocaleFixed2 (x : ℚ) : String :=
  ⟨(if x < 0 then ['-'] else [])
    ++ groupThousands (natChars ((toFixed2Units x).natAbs / 100))
    ++ '.' :: pad2Chars ((toFixed2Units x).natAbs % 100)⟩

/-- JS `x.toLocaleString()` with default options: comma-grouped, at most three
fraction digits, trailing fraction zeros dropped.  Only ever applied to values
already rounded to hundredths in this service, so three digits suffice. -/
def toLocaleStringDefault (x : ℚ) : String :=
  let mag : ℕ := (if x < 0 then -⌊-x * 1000 + 1 / 2⌋ else ⌊x * 1000 + 1 / 2⌋).natAbs
  let intPart : List Char := groupThousands (natChars (mag / 1000))
  let frac : ℕ := mag % 1000
  ⟨(if x < 0 then ['-'] else [])
    ++ intPart
    ++ (if frac = 0 then []
        else if frac % 100 = 0 then '.' :: natChars (frac / 100)
        else if frac % 10 = 0 then '.' :: pad2Chars (frac / 10)
        else '.' :: (if frac < 100 then ['0'] else []) ++ pad2Chars frac)⟩

/-- Digits of the unsigned part of a decimal string, split at the first `'.'`
(the accepting core of JS `parseFloat` on the strings this service produces). -/
def parseUnsignedChars (cs : List Char) : ℚ :=
  match cs.dropWhile (fun c => c != '.') with
  | [] => (digitsToNat (cs.takeWhile (fun c => c != '.')) : ℚ)
  | _ :: frac =>
      (digitsToNat (cs.takeWhile (fun c => c != '.')) : ℚ)
        + (digitsToNat frac : ℚ) / 10 ^ frac.length

/-- JS `parseFloat` on a character list: optional leading minus sign, then an
unsigned decimal.  (`parseFloat("")` is NaN in JS; the empty case is never
exercised here and is modelled as 0.) -/
def parseFloatChars (cs : List Char) : ℚ :=
  match cs with
  | [] => 0
  | c :: rest => if c = '-' then -parseUnsignedChars rest else parseUnsignedChars (c :: rest)

/-- JS `parseFloat` / `Number(...)` on the numeric strings this service
produces. -/
def parseFloat (s : String) : ℚ := parseFloatChars s.data

/-- JS truthiness of a possibly-absent number: `undefined`, `null` and `0` are
falsy. -/
def jsTruthy : Option ℚ → Bool
  | none => false
  | some v => v != 0

/-- JS `new Date(t).toLocaleDateString()`.  The locale-dependent calendar
rendering is abstracted by an injective stand-in; no claim inspects dates. -/
def toLocaleDateString (t : ℤ) : String := toString t

/-- JS `new Date(t).toLocaleTimeString()`, abstracted like
`toLocaleDateString`. -/
def toLocaleTimeString (t : ℤ) : String := toString t

/-! UI Node model.  The source represents nodes as
`\x7btype: string, uiData: JSON.stringify(payload), children\x7d` objects; the
embedding is the structured content of those objects (spec §3 "UI Node":
kind, payload, ordered children). -/

/-- One table column descriptor `\x7bkey, header, type, width?\x7d`. -/
structure Column where
  key : String
  header : String
  type : String
  width : Option String := none
  deriving DecidableEq

/-- One table row: an association of column keys to rendered cell content.
Nested cell objects (link cells, per-cell styles) are flattened into
dot-separated keys. -/
abbrev Row := List (String × String)

/-- A chart `trend` annotation: signed numeric delta and display text. -/
structure Trend where
  value : ℚ
  text : String
  deriving DecidableEq

/-- One chart data point (`\x7btime/date, price, label?\x7d` in the source). -/
structure ChartPoint where
  time : String
  price : ℚ
  label : Option String := none
  deriving DecidableEq

/-- The payload of a chart node, as assembled by every chart construction in
the source.  Static styling (`config.height`, colors, margins, axis format)
carries no claim-relevant content and is elided. -/
structure ChartData where
  type : String
  title : String
  description : String
  data : List ChartPoint
  dataKeyX : String
  dataKeyY : String
  trend : Option Trend := none
  footer : Option String := none

/-- A UI node: a tagged variant over the node kinds occurring in the source
(`div`, `chart`, `table`, `card`, `alert`, `p`), with ordered children for the
composite kinds. -/
inductive UINode where
  | div : List (String × String) → List UINode → UINode
  | chart : ChartData → UINode
  | table : List Column → List Row → UINode
  | card : Option String → Option String → List UINode → UINode
  | alert : String → String → UINode
  | p : String → UINode

/-- The kind tag of a node (the `type` string of the source objects). -/
def UINode.kind : UINode → String
  | .div _ _ => "div"
  | .chart _ => "chart"
  | .table _ _ => "table"
  | .card _ _ _ => "card"
  | .alert _ _ => "alert"
  | .p _ => "p"

/-- The ordered children of a node (empty for leaf kinds). -/
def UINode.children : UINode → List UINode
  | .div _ cs => cs
  | .card _ _ cs => cs
  | _ => []

/-- Reads back the payload of a table node. -/
def UINode.tablePayload : UINode → Option (List Column × List Row)
  | .table cols rows => some (cols, rows)
  | _ => none

/-- The uniform Result Envelope `\x7btext, data, ui\x7d`; `data` is `none` on
failure (`data: null`). -/
structure Envelope (δ : Type) where
  text : String
  data : Option δ
  ui : UINode

/-! Builders from `@dainprotocol/utils`, used by the `part_000` variant.
Their implementation is not under `src/`, so they are modelled from the
specification (§4.1). -/

/-- Modelled from the spec: `CardUIBuilder` of `@dainprotocol/utils`
(§4.1 `buildCard(title?, content?)` then repeatable `.addChild(node)`):
a builder accumulates configuration and children, and `build()` emits a
composite node whose children are the nodes added, in call order. -/
structure CardUIBuilder where
  titleAcc : Option String := none
  contentAcc : Option String := none
  childrenAcc : List UINode := []

/-- A fresh card builder (`new CardUIBuilder()`). -/
def CardUIBuilder.new : CardUIBuilder := {}

/-- `.title(t)` on a card builder. -/
def CardUIBuilder.title (b : CardUIBuilder) (t : String) : CardUIBuilder :=
  { b with titleAcc := some t }

/-- `.content(c)` on a card builder. -/
def CardUIBuilder.content (b : CardUIBuilder) (c : String) : CardUIBuilder :=
  { b with contentAcc := some c }

/-- `.addChild(n)`: appends one child node, preserving call order. -/
def CardUIBuilder.addChild (b : CardUIBuilder) (n : UINode) : CardUIBuilder :=
  { b with childrenAcc := b.childrenAcc ++ [n] }

/-- `.build()`: emits the finished immutable card node. -/
def CardUIBuilder.build (b : CardUIBuilder) : UINode :=
  UINode.card b.titleAcc b.contentAcc b.childrenAcc

/-- Modelled from the spec: `TableUIBuilder` of `@dainprotocol/utils`
(§4.1 `buildTable(columns, rows)`), accumulating columns and rows. -/
structure TableUIBuilder where
  columnsAcc : List Column := []
  rowsAcc : List Row := []

/-- A fresh table builder (`new TableUIBuilder()`). -/
def TableUIBuilder.new : TableUIBuilder := {}

/-- `.addColumns(cs)`: appends column descriptors in order. -/
def TableUIBuilder.addColumns (b : TableUIBuilder) (cs : List Column) : TableUIBuilder :=
  { b with columnsAcc := b.columnsAcc ++ cs }

/-- `.rows(rs)`: sets the row sequence. -/
def TableUIBuilder.rows (b : TableUIBuilder) (rs : List Row) : TableUIBuilder :=
  { b with rowsAcc := rs }

/-- `.build()`: emits the finished table node; per §4.1 it fails with a
`SchemaError` when no columns were declared. -/
def TableUIBuilder.build (b : TableUIBuilder) : Except String UINode :=
  if b.columnsAcc.isEmpty then Except.error "SchemaError: columns must be non-empty"
  else Except.ok (UINode.table b.columnsAcc b.rowsAcc)

/-- Modelled from the spec: `buildTable(columns, rows)` of §4.1, via the
builder. -/
def buildTable (cols : List Column) (rows : List Row) : Except String UINode :=
  ((TableUIBuilder.new.addColumns cols).rows rows).build

/-- Modelled from the spec: `AlertUIBuilder` of `@dainprotocol/utils`
(§4.1 `buildAlert(variant, message)`). -/
structure AlertUIBuilder where
  variantAcc : Option String := none
  messageAcc : Option String := none

/-- A fresh alert builder (`new AlertUIBuilder()`). -/
def AlertUIBuilder.new : AlertUIBuilder := {}

/-- `.withVariant(v)` on an alert builder. -/
def AlertUIBuilder.withVariant (b : AlertUIBuilder) (v : String) : AlertUIBuilder :=
  { b with variantAcc := some v }

/-- `.withMessage(m)` on an alert builder. -/
def AlertUIBuilder.withMessage (b : AlertUIBuilder) (m : String) : AlertUIBuilder :=
  { b with messageAcc := some m }

/-- `.build()`: emits the finished alert node. -/
def AlertUIBuilder.build (b : AlertUIBuilder) : UINode :=
  UINode.alert (b.variantAcc.getD "info") (b.messageAcc.getD "")

/-- Modelled from the spec: `ChartUIBuilder` of `@dainprotocol/utils`
(§4.1 `buildChart(kind, title, description?, series, dataKeys, trend?,
footer?)`), accumulating the chart payload field by field.  §4.1's defensive
shape check (`dataKeys.x`/`dataKeys.y` present in the first point) is vacuous
in this structural embedding, where every point carries both fields; the
optional `name` data key is elided like the widget chart's `tooltip` key. -/
structure ChartUIBuilder where
  typeAcc : String := ""
  titleAcc : String := ""
  descriptionAcc : String := ""
  chartDataAcc : List ChartPoint := []
  dataKeyXAcc : String := ""
  dataKeyYAcc : String := ""
  trendAcc : Option Trend := none
  footerAcc : Option String := none

/-- A fresh chart builder (`new ChartUIBuilder()`). -/
def ChartUIBuilder.new : ChartUIBuilder := {}

/-- `.type(t)` on a chart builder. -/
def ChartUIBuilder.type (b : ChartUIBuilder) (t : String) : ChartUIBuilder :=
  { b with typeAcc := t }

/-- `.title(t)` on a chart builder. -/
def ChartUIBuilder.title (b : ChartUIBuilder) (t : String) : ChartUIBuilder :=
  { b with titleAcc := t }

/-- `.description(d)` on a chart builder. -/
def ChartUIBuilder.description (b : ChartUIBuilder) (d : String) : ChartUIBuilder :=
  { b with descriptionAcc := d }

/-- `.chartData(ps)`: sets the data point series. -/
def ChartUIBuilder.chartData (b : ChartUIBuilder) (ps : List ChartPoint) : ChartUIBuilder :=
  { b with chartDataAcc := ps }

/-- `.dataKeys(\x7bx, y, ...\x7d)`: names the point fields for the axes. -/
def ChartUIBuilder.dataKeys (b : ChartUIBuilder) (x y : String) : ChartUIBuilder :=
  { b with dataKeyXAcc := x, dataKeyYAcc := y }

/-- `.trend(value, text)`: sets the trend annotation. -/
def ChartUIBuilder.trend (b : ChartUIBuilder) (v : ℚ) (t : String) : ChartUIBuilder :=
  { b with trendAcc := some { value := v, text := t } }

/-- `.footer(f)` on a chart builder. -/
def ChartUIBuilder.footer (b : ChartUIBuilder) (f : String) : ChartUIBuilder :=
  { b with footerAcc := some f }

/-- `.build()`: emits the finished chart node. -/
def ChartUIBuilder.build (b : ChartUIBuilder) : UINode :=
  UINode.chart
    { type := b.typeAcc, title := b.titleAcc, description := b.descriptionAcc,
      data := b.chartDataAcc, dataKeyX := b.dataKeyXAcc, dataKeyY := b.dataKeyYAcc,
      trend := b.trendAcc, footer := b.footerAcc }

/-! The `get-stock-price` tool of the stonks variant
(`src/stonks/src/index.ts` lines 13-140). -/

/-- One OHLCV aggregate bar as used by the stonks variant's price handler,
which reads `o`, `c`, `h`, `l`, `v`, `vw` and `t` unconditionally. -/
structure Bar where
  o : ℚ
  c : ℚ
  h : ℚ
  l : ℚ
  v : ℚ
  vw : ℚ
  t : ℤ
  deriving DecidableEq

/-- The `data` payload of the price tool's success envelope. -/
structure PriceData where
  price : ℚ
  high : ℚ
  low : ℚ
  volume : ℚ
  change : ℚ
  changePercent : ℚ
  deriving DecidableEq

/-- `index.ts:59-60`: `const change = latestData.c - latestData.o`. -/
def stockPriceChange (latestData : Bar) : ℚ := latestData.c - latestData.o

/-- `index.ts:60`: `((change) / latestData.o * 100).toFixed(2)` — note the
denominator is `latestData.o` itself, with no fallback.  (Rational division by
zero yields `0` where JS yields `Infinity`; no stated theorem evaluates this
at `o = 0`.) -/
def stockPriceChangePercentStr (latestData : Bar) : String :=
  toFixed2 (stockPriceChange latestData / latestData.o * 100)

/-- `index.ts:63-87`: the 5-day chart payload. -/
def stockPriceChartData (ticker : String) (results : List Bar) (latestData : Bar) : ChartData :=
  { type := "line"
    title := ticker ++ " 5-Day Price History"
    description := "Price movement over the last 5 trading days"
    data := results.reverse.map fun bar =>
      { time := toLocaleDateString bar.t, price := bar.c }
    dataKeyX := "time"
    dataKeyY := "price"
    trend := some
      { value := parseFloat (stockPriceChangePercentStr latestData)
        text := stockPriceChangePercentStr latestData ++ "% change" } }

/-- `index.ts:90-103`: the stats table columns. -/
def stockPriceTableColumns : List Column :=
  [ { key := "metric", header := "Metric", type := "text", width := some "40%" },
    { key := "value", header := "Value", type := "text", width := some "60%" } ]

/-- `index.ts:104-111`: the stats table rows (Volume/Open/High/Low/VWAP). -/
def stockPriceTableRows (latestData : Bar) : List Row :=
  [ [("metric", "Volume"), ("value", toLocaleStringDefault latestData.v)],
    [("metric", "Open"), ("value", "$" ++ toFixed2 latestData.o)],
    [("metric", "High"), ("value", "$" ++ toFixed2 latestData.h)],
    [("metric", "Low"), ("value", "$" ++ toFixed2 latestData.l)],
    [("metric", "VWAP"), ("value", "$" ++ toFixed2 latestData.vw)] ]

/-- `index.ts:27-139`: the price tool handler, as a function of the
provider's (desc-sorted) aggregate results.  An empty result set raises
`No data available for ...` (line 56); otherwise the success envelope of
lines 113-138 is produced. -/
def getStockPriceHandler (ticker : String) (results : List Bar) :
    Except String (Envelope PriceData) :=
  match results.head? with
  | none => Except.error ("No data available for " ++ ticker)
  | some latestData =>
      let changePercent := stockPriceChangePercentStr latestData
      Except.ok
        { text := ticker ++ " is trading at $" ++ toFixed2 latestData.c
            ++ ". Today\x27s change: " ++ changePercent ++ "%"
          data := some
            { price := latestData.c
              high := latestData.h
              low := latestData.l
              volume := latestData.v
              change := stockPriceChange latestData
              changePercent := parseFloat changePercent }
          ui := UINode.div
            [ ("title", ticker ++ " Stock Price and Stats"),
              ("content", ticker ++ " is trading at $" ++ toFixed2 latestData.c
                ++ ". Today\x27s change: " ++ changePercent ++ "%") ]
            [ UINode.chart (stockPriceChartData ticker results latestData),
              UINode.table stockPriceTableColumns (stockPriceTableRows latestData) ] }

/-- Modelled from the spec: the Dispatcher's uniform failure conversion, which
lives in `@dainprotocol/service-sdk`, not under `src/`.  Per §4.3 step 4 and
§7, a handler failure is caught at the dispatch boundary and converted into a
failure envelope with a descriptive `text`, `data: null` and an error-variant
`alert` node, rather than propagating. -/
def dispatchInvoke {δ : Type} (result : Except String (Envelope δ)) : Envelope δ :=
  match result with
  | Except.ok env => env
  | Except.error msg => { text := msg, data := none, ui := UINode.alert "error" msg }

/-- `invoke("get-stock-price", ...)` for the stonks variant: handler plus the
modelled dispatcher boundary. -/
def invokeGetStockPrice (ticker : String) (results : List Bar) : Envelope PriceData :=
  dispatchInvoke (getStockPriceHandler ticker results)

/-! The `get-stock-price` tool of the builder variant
(`src/unnamed/part_000` lines 21-117): the same fetch and computation as the
stonks variant, with the UI assembled through the modelled
`@dainprotocol/utils` builders into a card root. -/

/-- `part_000:86-89`: the stats table columns of the builder variant — the
same keys/headers as the stonks variant but with no `width` fields. -/
def stockPriceTableColumns000 : List Column :=
  [ { key := "metric", header := "Metric", type := "text" },
    { key := "value", header := "Value", type := "text" } ]

/-- `part_000:85-96`: `tableBuilder.build()` — the columns literal is
non-empty, so the modelled `build()` cannot return its `SchemaError`; the
error arm below is unreachable.  The rows are the same Volume/Open/High/Low/
VWAP rows as the stonks variant (`part_000:90-96` = `index.ts:104-111`). -/
def stockPriceTableNode000 (latestData : Bar) : UINode :=
  match ((TableUIBuilder.new.addColumns stockPriceTableColumns000).rows
      (stockPriceTableRows latestData)).build with
  | Except.ok node => node
  | Except.error _ => UINode.table [] []

/-- `part_000:70-83`: the builder variant's 5-day chart builder. -/
def stockPriceChartBuilder000 (ticker : String) (results : List Bar) (latestData : Bar) :
    ChartUIBuilder :=
  (((((ChartUIBuilder.new.type "line").title
      (ticker ++ " 5-Day Price History")).description
      "Price movement over the last 5 trading days").chartData
      (results.reverse.map fun bar =>
        { time := toLocaleDateString bar.t, price := bar.c })).dataKeys "time"
      "price").trend (parseFloat (stockPriceChangePercentStr latestData))
    (stockPriceChangePercentStr latestData ++ "% change")

/-- `part_000:35-116`: the builder variant's price handler.  An empty result
set raises `No data available for ...` (line 64); otherwise the card of lines
98-102 is built — title, content, then `addChild(chart)`, `addChild(table)` —
and returned as the envelope's `ui` (line 114). -/
def getStockPriceHandler000 (ticker : String) (results : List Bar) :
    Except String (Envelope PriceData) :=
  match results.head? with
  | none => Except.error ("No data available for " ++ ticker)
  | some latestData =>
      let changePercent := stockPriceChangePercentStr latestData
      let cardBuilder :=
        (((CardUIBuilder.new.title (ticker ++ " Stock Price and Stats")).content
            (ticker ++ " is trading at $" ++ toFixed2 latestData.c
              ++ ". Today\x27s change: " ++ changePercent ++ "%")).addChild
            (stockPriceChartBuilder000 ticker results latestData).build).addChild
          (stockPriceTableNode000 latestData)
      Except.ok
        { text := ticker ++ " is trading at $" ++ toFixed2 latestData.c
            ++ ". Today\x27s change: " ++ changePercent ++ "%"
          data := some
            { price := latestData.c
              high := latestData.h
              low := latestData.l
              volume := latestData.v
              change := stockPriceChange latestData
              changePercent := parseFloat changePercent }
          ui := cardBuilder.build }

/-! The `get-stock-price` tool of the previous-close variant
(`src/unnamed/part_001` lines 12-133). -/

/-- The previous-close record of `part_001`, every field read through `??` or
`?.` guards. -/
structure PrevAgg where
  c : Option ℚ := none
  o : Option ℚ := none
  h : Option ℚ := none
  l : Option ℚ := none
  v : Option ℚ := none
  vw : Option ℚ := none
  deriving DecidableEq

/-- A 30-minute aggregate bar of `part_001`'s 24h chart (`bar.t`, `bar.c ?? 0`). -/
structure Bar001 where
  t : ℤ
  c : Option ℚ := none
  deriving DecidableEq

/-- The percent-change denominator used by the widget (`index.ts:463`,
`part_000:393`) and the previous-close price handler (`part_001:48`):
`data.o ?? 1`.  JS `??` substitutes only for `null`/`undefined`, so a present
`0` is returned unchanged. -/
def changePercentDenominator (o : Option ℚ) : ℚ := o.getD 1

/-- `part_001:47`: `const change = prevCloseData.c ? prevCloseData.c -
prevCloseData.o : 0` — `0` when `c` is absent or zero (JS truthiness).
(When `c` is present but `o` absent JS yields NaN; the model reads `0` for the
absent `o`.  No stated theorem evaluates that corner.) -/
def prevCloseChange (d : PrevAgg) : ℚ :=
  if jsTruthy d.c then d.c.getD 0 - d.o.getD 0 else 0

/-- `part_001:48`: `((change) / (prevCloseData.o ?? 1) * 100).toFixed(2)`. -/
def prevCloseChangePercentStr (d : PrevAgg) : String :=
  toFixed2 (prevCloseChange d / changePercentDenominator d.o * 100)

/-- `part_001:50-74`: the 24h chart payload. -/
def stockPriceChartData001 (ticker : String) (aggsResults : List Bar001) (d : PrevAgg) : ChartData :=
  { type := "line"
    title := ticker ++ " 24 Hour Price History"
    description := "Price movement over the last 24 hours"
    data := aggsResults.map fun bar =>
      { time := toLocaleTimeString bar.t, price := bar.c.getD 0 }
    dataKeyX := "time"
    dataKeyY := "price"
    trend := some
      { value := parseFloat (prevCloseChangePercentStr d)
        text := prevCloseChangePercentStr d ++ "% change" } }

/-- `part_001:26-132`: the previous-close price handler.  With an empty
`previousClose` result set, `results[0]` is `undefined` and the first field
read at line 47 throws a `TypeError`.  The table of lines 76-98 is constructed
but commented out of `ui.children` (lines 120-126), so the returned root
carries a single chart child. -/
def getStockPriceHandler001 (ticker : String) (prevCloseResults : List PrevAgg)
    (aggsResults : List Bar001) : Except String (Envelope PriceData) :=
  match prevCloseResults.head? with
  | none => Except.error "TypeError: Cannot read properties of undefined (reading \x27c\x27)"
  | some prevCloseData =>
      let changePercent := prevCloseChangePercentStr prevCloseData
      let priceStr := match prevCloseData.c with
        | some c => toFixed2 c
        | none => "undefined"
      Except.ok
        { text := ticker ++ " is trading at $" ++ priceStr
            ++ ". Today\x27s change: " ++ changePercent ++ "%"
          data := some
            { price := prevCloseData.c.getD 0
              high := prevCloseData.h.getD 0
              low := prevCloseData.l.getD 0
              volume := prevCloseData.v.getD 0
              change := prevCloseChange prevCloseData
              changePercent := parseFloat changePercent }
          ui := UINode.div
            [ ("title", ticker ++ " Stock Price and Stats"),
              ("content", ticker ++ " is trading at $" ++ priceStr
                ++ ". Today\x27s change: " ++ changePercent ++ "%") ]
            [ UINode.chart (stockPriceChartData001 ticker aggsResults prevCloseData) ] }

/-- `invoke("get-stock-price", ...)` for the `part_001` variant. -/
def invokeGetStockPrice001 (ticker : String) (prevCloseResults : List PrevAgg)
    (aggsResults : List Bar001) : Envelope PriceData :=
  dispatchInvoke (getStockPriceHandler001 ticker prevCloseResults aggsResults)

/-! Optional-field defaulting of the news / dividends / splits tools.  In all
three variants the default is applied by destructuring at handler entry
(`\x7b ticker, limit = 5 \x7d` etc.), before any business logic, and the
resolved limit is what reaches the provider request. -/

/-- Input of `get-stock-news`: `ticker` required, `limit` optional
(declared default 5). -/
structure NewsInput where
  ticker : String
  limit : Option ℕ := none

/-- Input of `get-stock-dividends`: `limit` optional (declared default 10). -/
structure DividendsInput where
  ticker : String
  limit : Option ℕ := none

/-- Input of `get-stock-splits`: `limit` optional (declared default 5). -/
structure SplitsInput where
  ticker : String
  limit : Option ℕ := none

/-- A provider request carrying the resolved limit. -/
structure ProviderRequest where
  ticker : String
  limit : ℕ
  deriving DecidableEq

/-- `index.ts:159,163`: `handler: async ({ ticker, limit = 5 }, ...)` then
`client.reference.tickerNews({ ticker, limit })`. -/
def getStockNewsRequest (input : NewsInput) : ProviderRequest :=
  { ticker := input.ticker, limit := input.limit.getD 5 }

/-- `index.ts:356,360`: `{ ticker, limit = 10 }` then
`client.reference.dividends({ ticker, limit })`. -/
def getStockDividendsRequest (input : DividendsInput) : ProviderRequest :=
  { ticker := input.ticker, limit := input.limit.getD 10 }

/-- `index.ts:400,404`: `{ ticker, limit = 5 }` then
`client.reference.stockSplits({ ticker, limit })`. -/
def getStockSplitsRequest (input : SplitsInput) : ProviderRequest :=
  { ticker := input.ticker, limit := input.limit.getD 5 }

/-! The `marketOverview` pinned widget of the stonks variant
(`src/stonks/src/index.ts` lines 428-594). -/

/-- A previous-close bar as read by the widget: only `c` and `o` are
consulted, both through guards. -/
structure PrevBar where
  c : Option ℚ := none
  o : Option ℚ := none
  deriving DecidableEq

/-- The per-index record assembled at `index.ts:448-472`. -/
structure IndexResult where
  name : String
  price : String
  change : String
  changePercent : String
  isPositive : Bool
  deriving DecidableEq

/-- `index.ts:439-444`: the tracked index ETFs, `(ticker, display name)`. -/
def indices : List (String × String) :=
  [("DIA", "Dow Jones"), ("SPY", "S&P 500"), ("QQQ", "NASDAQ"), ("IWM", "Russell 2000")]

/-- `index.ts:448-472`: one index lookup's result.  `prevClose.results?.[0]`
is the `Option PrevBar` argument; with no data the placeholder record of
lines 452-460 is returned, otherwise the computed record of lines 462-471.
(As in `prevCloseChange`, the JS-NaN corner `c` present / `o` absent is
modelled by reading `0`, and a zero denominator divides to `0` instead of
JS `Infinity`; no stated theorem evaluates those corners.) -/
def fetchIndexResult (name : String) (bar? : Option PrevBar) : IndexResult :=
  match bar? with
  | none =>
      { name := name, price := "N/A", change := "0.00", changePercent := "0.00",
        isPositive := true }
  | some data =>
      let change : ℚ := if jsTruthy data.c then data.c.getD 0 - data.o.getD 0 else 0
      { name := name
        price := match data.c with
          | some c => toFixed2 c
          | none => "N/A"
        change := toFixed2 change
        changePercent := toFixed2 (change / changePercentDenominator data.o * 100)
        isPositive := decide (0 ≤ change) }

/-- The widget's per-index results, the zip of `indices` with the
per-ticker `previousClose` responses. -/
def marketOverviewResults (perIndex : List (List PrevBar)) : List IndexResult :=
  (indices.zip perIndex).map fun p => fetchIndexResult p.1.2 p.2.head?

/-- `index.ts:476-481`: the overview table columns. -/
def marketOverviewColumns : List Column :=
  [ { key := "name", header := "Index", type := "text", width := some "30%" },
    { key := "price", header := "Price", type := "text", width := some "25%" },
    { key := "change", header := "Change", type := "text", width := some "25%" },
    { key := "changePercent", header := "%", type := "text", width := some "20%" } ]

/-- `index.ts:482-504`: one formatted overview table row; the `style`
sub-object is flattened into dot-separated keys. -/
def overviewRow (result : IndexResult) : Row :=
  [ ("name", result.name),
    ("price", if result.price = "N/A" then "N/A"
      else "$" ++ toLocaleFixed2 (parseFloat result.price)),
    ("change", (if result.isPositive then "+" else "") ++ "$"
      ++ toLocaleFixed2 (parseFloat result.change)),
    ("changePercent", (if result.isPositive then "+" else "")
      ++ toLocaleFixed2 (parseFloat result.changePercent) ++ "%"),
    ("style.change.color", if result.isPositive then "#22C55E" else "#EF4444"),
    ("style.changePercent.color", if result.isPositive then "#22C55E" else "#EF4444") ]

/-- The overview table rows for given per-index responses. -/
def marketOverviewTableRows (perIndex : List (List PrevBar)) : List Row :=
  (marketOverviewResults perIndex).map overviewRow

/-- `index.ts:520-549`: the 30-day SPY chart; points with falsy (zero) price
are filtered out (line 532).  The `tooltip` data key is elided. -/
def marketOverviewChartData (aggsResults : List Bar) : ChartData :=
  { type := "line"
    title := "S&P 500"
    description := "30-day price history"
    data := (aggsResults.map fun bar =>
        { time := toLocaleDateString bar.t
          price := parseFloat (toFixed2 bar.c)
          label := some ("$" ++ toLocaleStringDefault (parseFloat (toFixed2 bar.c))) }).filter
      fun point => point.price != 0
    dataKeyX := "time"
    dataKeyY := "price" }

/-- `index.ts:552-581`: the widget's success envelope: a styled `div` whose
children are the table, then — only when the chart has data — the chart
(lines 552-564 build the array by push, preserving that order). -/
def marketOverviewSuccess (perIndex : List (List PrevBar)) (aggsResults : List Bar) :
    Envelope (List IndexResult) :=
  let results := marketOverviewResults perIndex
  let chartData := marketOverviewChartData aggsResults
  { text := "Market Overview - S&P 500: "
      ++ (match results.get? 1 with | some r => r.changePercent | none => "") ++ "%"
    data := some results
    ui := UINode.div
      [ ("style.padding", "12px"), ("style.backgroundColor", "#ffffff"),
        ("style.borderRadius", "8px"), ("style.boxShadow", "0 1px 3px rgba(0,0,0,0.12)") ]
      ([UINode.table marketOverviewColumns (results.map overviewRow)]
        ++ if chartData.data.length > 0 then [UINode.chart chartData] else []) }

/-- `index.ts:584-591`: the widget's catch-all failure envelope — note the
`ui` node is `\x7btype: "p", children: "Unable to load ..."\x7d`, a paragraph
node, not an alert. -/
def marketOverviewErrorEnvelope : Envelope (List IndexResult) :=
  { text := "Failed to load market overview"
    data := none
    ui := UINode.p "Unable to load market data at this time. Please check your Polygon.io API key and permissions." }

/-- `part_000:455-462`: the builder variant's catch-all failure envelope,
built with the (modelled) `AlertUIBuilder`. -/
def marketOverviewErrorEnvelope000 : Envelope (List IndexResult) :=
  { text := "Failed to load market overview"
    data := none
    ui := ((AlertUIBuilder.new.withVariant "error").withMessage
      "Unable to load market data at this time. Please check your Polygon.io API key and permissions.").build }

/-- `Promise.all` over already-settled outcomes: the first rejection rejects
the whole batch, otherwise all values are collected in order. -/
def promiseAll : List (Except ε α) → Except ε (List α)
  | [] => Except.ok []
  | Except.error e :: _ => Except.error e
  | Except.ok a :: rest => (promiseAll rest).map (a :: ·)

/-- `index.ts:435-593`: `getWidget`, as a function of the four
`previousClose` outcomes and the SPY aggregates outcome.  Any provider
rejection lands in the catch-all of lines 582-592; otherwise the success
envelope is composed. -/
def getMarketOverview (fetches : List (Except String (List PrevBar)))
    (spyAggs : Except String (List Bar)) : Envelope (List IndexResult) :=
  match promiseAll fetches, spyAggs with
  | Except.ok perIndex, Except.ok aggsResults => marketOverviewSuccess perIndex aggsResults
  | Except.error _, _ => marketOverviewErrorEnvelope
  | _, Except.error _ => marketOverviewErrorEnvelope

/-! Concrete records used by the scenario theorems. -/

/-- The scenario-1 bar `\x7bo:150, c:157.5, h:158, l:149, v:1000000\x7d`, with
the fields the scenario leaves open (`vw`, `t`) as parameters. -/
def scenarioBar (vw : ℚ) (t : ℤ) : Bar :=
  { o := 150, c := 157.5, h := 158, l := 149, v := 1000000, vw := vw, t := t }

/-- The scenario-1 bar as a `previousClose` record for the `part_001` variant. -/
def scenarioPrevAgg : PrevAgg :=
  { c := some 157.5, o := some 150, h := some 158, l := some 149, v := some 1000000 }

/-- A sample previous-close bar for a succeeding index lookup. -/
def samplePrevBar : PrevBar := { c := some 100, o := some 99 }

/-- A bar with `open = 100`, `close = 105` (the `+5.00%` rounding example). -/
def bar105 : Bar := { o := 100, c := 105, h := 106, l := 99, v := 1000, vw := 101, t := 0 }

/-- A bar with `open = 100`, `close = 95` (the `-5.00%` rounding example). -/
def bar95 : Bar := { o := 100, c := 95, h := 101, l := 94, v := 1000, vw := 97, t := 0 }

/-- The placeholder table row rendered for an index whose lookup returned no
data: `N/A` price and zero change. -/
def placeholderRow (name : String) : Row :=
  [ ("name", name), ("price", "N/A"), ("change", "+$0.00"), ("changePercent", "+0.00%"),
    ("style.change.color", "#22C55E"), ("style.changePercent.color", "#22C55E") ]

/-! Helper lemmas: reading rendered decimals back, and the value denoted by
`toFixed(2)` output. -/

theorem digitChar_toNat : ∀ d, d < 10 → (digitChar d).toNat = 48 + d := by decide

theorem digitChar_ne_dot : ∀ d, d < 10 → digitChar d ≠ '.' ∧ digitChar d ≠ '-' := by decide

theorem mem_natCharsAux : ∀ (fuel n : ℕ) (c : Char), c ∈ natCharsAux fuel n →
    ∃ d, d < 10 ∧ c = digitChar d := by
  intro fuel
  induction fuel with
  | zero => intro n c hc; simp [natCharsAux] at hc
  | succ fuel ih =>
    intro n c hc
    by_cases hn : n = 0
    · simp [natCharsAux, hn] at hc
    · simp only [natCharsAux, if_neg hn, List.mem_append, List.mem_singleton] at hc
      rcases hc with hc | hc
      · exact ih _ _ hc
      · exact ⟨n % 10, Nat.mod_lt _ (by norm_num), hc⟩

theorem mem_natChars (n : ℕ) (c : Char) (hc : c ∈ natChars n) :
    c ≠ '.' ∧ c ≠ '-' := by
  unfold natChars at hc
  by_cases hn : n = 0
  · simp [hn] at hc
    subst hc; exact ⟨by decide, by decide⟩
  · rw [if_neg hn] at hc
    obtain ⟨d, hd, rfl⟩ := mem_natCharsAux _ _ _ hc
    exact digitChar_ne_dot d hd

theorem natChars_ne_nil (n : ℕ) : natChars n ≠ [] := by
  unfold natChars
  by_cases hn : n = 0
  · simp [hn]
  · rw [if_neg hn]
    cases n with
    | zero => exact absurd rfl hn
    | succ m =>
      simp only [natCharsAux, if_neg hn]
      intro h
      exact absurd (List.append_eq_nil.mp h).2 (by simp)

theorem digitsToNat_append_singleton (A : List Char) (c : Char) :
    digitsToNat (A ++ [c]) = 10 * digitsToNat A + (c.toNat - 48) := by
  unfold digitsToNat
  rw [List.foldl_append]
  rfl

theorem digitsToNat_natCharsAux : ∀ (fuel n : ℕ), n < 10 ^ fuel →
    digitsToNat (natCharsAux fuel n) = n := by
  intro fuel
  induction fuel with
  | zero =>
    intro n hn
    interval_cases n
    rfl
  | succ fuel ih =>
    intro n hn
    by_cases h0 : n = 0
    · subst h0; rfl
    · rw [natCharsAux, if_neg h0, digitsToNat_append_singleton,
        digitChar_toNat _ (Nat.mod_lt _ (by norm_num)),
        ih (n / 10) (by
          rw [Nat.div_lt_iff_lt_mul (by norm_num : 0 < 10)]
          calc n < 10 ^ (fuel + 1) := hn
            _ = 10 ^ fuel * 10 := by ring)]
      omega

theorem digitsToNat_natChars (n : ℕ) : digitsToNat (natChars n) = n := by
  unfold natChars
  by_cases hn : n = 0
  · simp [hn]; rfl
  · rw [if_neg hn]
    exact digitsToNat_natCharsAux (n + 1) n
      (lt_of_lt_of_le (Nat.lt_pow_self (by norm_num) n)
        (Nat.pow_le_pow_right (by norm_num) (Nat.le_succ n)))

theorem pad2Chars_facts : ∀ r, r < 100 →
    digitsToNat (pad2Chars r) = r ∧ (pad2Chars r).length = 2 ∧
      ∀ c ∈ pad2Chars r, c ≠ '.' := by decide

theorem takeWhile_append_stop (A B : List Char)
    (hA : ∀ c ∈ A, c ≠ '.') :
    (A ++ '.' :: B).takeWhile (fun c => c != '.') = A ∧
      (A ++ '.' :: B).dropWhile (fun c => c != '.') = '.' :: B := by
  induction A with
  | nil => constructor <;> simp [List.takeWhile, List.dropWhile]
  | cons a A ih =>
    have ha : (a != '.') = true := bne_iff_ne.mpr (hA a (List.mem_cons_self a A))
    have ihA := ih fun c hc => hA c (List.mem_cons_of_mem a hc)
    constructor
    · simpa [List.takeWhile, ha] using ihA.1
    · simpa [List.dropWhile, ha] using ihA.2

theorem parseUnsignedChars_fixed2 (mag : ℕ) :
    parseUnsignedChars (fixed2Chars mag) = (mag : ℚ) / 100 := by
  have hr : mag % 100 < 100 := Nat.mod_lt _ (by norm_num)
  obtain ⟨hread, hlen, hdot⟩ := pad2Chars_facts _ hr
  have hsplit := takeWhile_append_stop (natChars (mag / 100)) (pad2Chars (mag % 100))
    (fun c hc => (mem_natChars _ c hc).1)
  unfold parseUnsignedChars fixed2Chars
  rw [hsplit.1, hsplit.2, digitsToNat_natChars]
  show ((mag / 100 : ℕ) : ℚ)
      + (digitsToNat (pad2Chars (mag % 100)) : ℚ) / 10 ^ (pad2Chars (mag % 100)).length
    = (mag : ℚ) / 100
  rw [hread, hlen]
  have hm : (mag : ℚ) = 100 * ((mag / 100 : ℕ) : ℚ) + ((mag % 100 : ℕ) : ℚ) := by
    exact_mod_cast (Nat.div_add_mod mag 100).symm
  rw [hm]
  ring

theorem parseFloatChars_cons_ne (c : Char) (rest : List Char) (h : c ≠ '-') :
    parseFloatChars (c :: rest) = parseUnsignedChars (c :: rest) := by
  simp [parseFloatChars, h]

theorem parseFloat_toFixed2 (x : ℚ) : parseFloat (toFixed2 x) = toFixed2Val x := by
  unfold parseFloat toFixed2 toFixed2Val
  by_cases hx : x < 0
  · have hf : (0 : ℤ) ≤ ⌊-x * 100 + 1 / 2⌋ := by
      apply Int.floor_nonneg.mpr
      nlinarith
    have hu : toFixed2Units x = -⌊-x * 100 + 1 / 2⌋ := by
      rw [toFixed2Units, if_pos hx]
    have habs : ((toFixed2Units x).natAbs : ℤ) = ⌊-x * 100 + 1 / 2⌋ := by
      rw [hu, Int.natAbs_neg]
      exact Int.natAbs_of_nonneg hf
    rw [if_pos hx]
    show parseFloatChars ('-' :: fixed2Chars (toFixed2Units x).natAbs) = _
    rw [show parseFloatChars ('-' :: fixed2Chars (toFixed2Units x).natAbs)
        = -parseUnsignedChars (fixed2Chars (toFixed2Units x).natAbs) from rfl]
    rw [parseUnsignedChars_fixed2]
    have habsQ : (((toFixed2Units x).natAbs : ℕ) : ℚ) = ((⌊-x * 100 + 1 / 2⌋ : ℤ) : ℚ) := by
      conv_rhs => rw [← habs]
      push_cast
      simp [Int.cast_natAbs]
    rw [habsQ, hu]
    push_cast
    ring
  · have hf : (0 : ℤ) ≤ ⌊x * 100 + 1 / 2⌋ := by
      apply Int.floor_nonneg.mpr
      push_neg at hx
      nlinarith
    have hu : toFixed2Units x = ⌊x * 100 + 1 / 2⌋ := by
      rw [toFixed2Units, if_neg (by simpa using hx)]
    have habs : ((toFixed2Units x).natAbs : ℤ) = toFixed2Units x := by
      rw [hu]; exact Int.natAbs_of_nonneg hf
    rw [if_neg (by simpa using hx)]
    show parseFloatChars ([] ++ fixed2Chars (toFixed2Units x).natAbs) = _
    rw [List.nil_append]
    obtain ⟨a, l, hl⟩ : ∃ a l, natChars ((toFixed2Units x).natAbs / 100) = a :: l := by
      rcases h : natChars ((toFixed2Units x).natAbs / 100) with _ | ⟨a, l⟩
      · exact absurd h (natChars_ne_nil _)
      · exact ⟨a, l, rfl⟩
    have ha : a ≠ '-' := (mem_natChars _ a (by rw [hl]; exact List.mem_cons_self a l)).2
    have hshape : fixed2Chars (toFixed2Units x).natAbs
        = a :: (l ++ '.' :: pad2Chars ((toFixed2Units x).natAbs % 100)) := by
      unfold fixed2Chars
      rw [hl]
      rfl
    rw [hshape, parseFloatChars_cons_ne _ _ ha, ← hshape, parseUnsignedChars_fixed2]
    have hq : (((toFixed2Units x).natAbs : ℕ) : ℚ) = ((toFixed2Units x : ℤ) : ℚ) := by
      conv_rhs => rw [← habs]
      push_cast
      simp [Int.cast_natAbs]
    rw [hq]

theorem toFixed2Units_intCast_div (k : ℤ) : toFixed2Units ((k : ℚ) / 100) = k := by
  have half : ⌊(1 : ℚ) / 2⌋ = 0 := by
    rw [Int.floor_eq_zero_iff]
    constructor <;> norm_num
  unfold toFixed2Units
  by_cases hk : (k : ℚ) / 100 < 0
  · rw [if_pos hk]
    rw [show -((k : ℚ) / 100) * 100 + 1 / 2 = ((-k : ℤ) : ℚ) + 1 / 2 by push_cast; ring]
    rw [Int.floor_int_add, half]
    ring
  · rw [if_neg hk]
    rw [show (k : ℚ) / 100 * 100 + 1 / 2 = ((k : ℤ) : ℚ) + 1 / 2 by ring]
    rw [Int.floor_int_add, half]
    ring

theorem ratCast_div_neg_iff (k : ℤ) : (k : ℚ) / 100 < 0 ↔ k < 0 := by
  rw [div_lt_iff₀ (by norm_num : (0 : ℚ) < 100)]
  simp

theorem toFixed2_intCast_div (k : ℤ) :
    toFixed2 ((k : ℚ) / 100) = ⟨(if k < 0 then ['-'] else []) ++ fixed2Chars k.natAbs⟩ := by
  unfold toFixed2
  rw [toFixed2Units_intCast_div]
  by_cases hk : k < 0
  · rw [if_pos hk, if_pos ((ratCast_div_neg_iff k).mpr hk)]
  · rw [if_neg hk, if_neg (fun h => hk ((ratCast_div_neg_iff k).mp h))]

theorem toLocaleFixed2_intCast_div (k : ℤ) :
    toLocaleFixed2 ((k : ℚ) / 100) = ⟨(if k < 0 then ['-'] else [])
      ++ groupThousands (natChars (k.natAbs / 100)) ++ '.' :: pad2Chars (k.natAbs % 100)⟩ := by
  unfold toLocaleFixed2
  rw [toFixed2Units_intCast_div]
  by_cases hk : k < 0
  · rw [if_pos hk, if_pos ((ratCast_div_neg_iff k).mpr hk)]
  · rw [if_neg hk, if_neg (fun h => hk ((ratCast_div_neg_iff k).mp h))]

theorem toFixed2Val_intCast_div (k : ℤ) : toFixed2Val ((k : ℚ) / 100) = (k : ℚ) / 100 := by
  unfold toFixed2Val
  rw [toFixed2Units_intCast_div]

theorem toFixed2Units_nonneg (x : ℚ) (hx : 0 ≤ x) : 0 ≤ toFixed2Units x := by
  rw [toFixed2Units, if_neg (by simpa using hx)]
  apply Int.floor_nonneg.mpr
  nlinarith

theorem toFixed2Units_nonpos (x : ℚ) (hx : x ≤ 0) : toFixed2Units x ≤ 0 := by
  unfold toFixed2Units
  by_cases h : x < 0
  · rw [if_pos h]
    have : (0 : ℤ) ≤ ⌊-x * 100 + 1 / 2⌋ := Int.floor_nonneg.mpr (by nlinarith)
    omega
  · have hx0 : x = 0 := le_antisymm hx (not_lt.mp h)
    subst hx0
    rw [if_neg h]
    rw [show (0 : ℚ) * 100 + 1 / 2 = ((0 : ℤ) : ℚ) + 1 / 2 by push_cast; ring]
    rw [Int.floor_int_add]
    rw [show ⌊(1 : ℚ) / 2⌋ = 0 by rw [Int.floor_eq_zero_iff]; constructor <;> norm_num]
    norm_num

/-! Claim theorems. -/

/-- Claim C2 counterexample: the claim asserts that a zero **or** absent
baseline `open` yields denominator `1`; but the source's `data.o ?? 1`
(`index.ts:463`, `part_001:48`) substitutes only for an absent `open` — a
present `open = 0` is used unchanged, so the denominator is `0`, not `1`. -/
theorem widget_zero_open_denominator_not_one :
    changePercentDenominator (some 0) = 0 ∧ ¬ changePercentDenominator (some 0) = 1 := by
  constructor
  · rfl
  · intro h
    rw [show changePercentDenominator (some 0) = 0 from rfl] at h
    exact absurd h (by norm_num)

/-- Claim C2 (amended): the denominator `data.o ?? 1` used by the widget and
previous-close computations is `1` exactly when `open` is absent, and equals
`open` itself — including `0` — when present; and the five-day price tool
(`index.ts:60`) divides by `open` directly with no substitution at all: for a
bar with nonzero `open` its `data.changePercent` is the two-decimal rounding
of `(close - open) / open * 100` with `open` itself as denominator. -/
theorem percent_change_denominator_behavior :
    changePercentDenominator none = 1
    ∧ (∀ x : ℚ, changePercentDenominator (some x) = x)
    ∧ (∀ (ticker : String) (latestData : Bar) (rest : List Bar), latestData.o ≠ 0 →
        ∃ env, getStockPriceHandler ticker (latestData :: rest) = Except.ok env
          ∧ env.data = some
              { price := latestData.c, high := latestData.h, low := latestData.l,
                volume := latestData.v, change := latestData.c - latestData.o,
                changePercent := toFixed2Val ((latestData.c - latestData.o) / latestData.o * 100) }) := by
  refine ⟨rfl, fun x => rfl, fun ticker latestData rest _ => ⟨_, rfl, ?_⟩⟩
  show some _ = some _
  rw [show parseFloat (stockPriceChangePercentStr latestData)
      = toFixed2Val ((latestData.c - latestData.o) / latestData.o * 100) by
    unfold stockPriceChangePercentStr stockPriceChange
    exact parseFloat_toFixed2 _]
  rfl

/-- Claim C2 witness: the amended behavior at the concrete bar `bar105`. -/
theorem percent_change_denominator_behavior_inst :
    bar105.o ≠ 0
    ∧ ∃ env, getStockPriceHandler "AAPL" [bar105] = Except.ok env
        ∧ env.data = some
            { price := bar105.c, high := bar105.h, low := bar105.l,
              volume := bar105.v, change := bar105.c - bar105.o,
              changePercent := toFixed2Val ((bar105.c - bar105.o) / bar105.o * 100) } :=
  ⟨by norm_num [bar105],
    percent_change_denominator_behavior.2.2 "AAPL" bar105 [] (by norm_num [bar105])⟩

/-- Claim C4: invoking the price tool when the provider returns zero bars
yields an error envelope with `data: null` and an `alert`-kind `ui`, in
both the stonks variant (explicit `throw` at `index.ts:56`) and the
`part_001` variant (`TypeError` on `results[0]` at `part_001:33,47`); the
modelled dispatcher converts the fault instead of propagating it. -/
theorem price_tool_zero_bars_error_envelope (ticker : String) (aggsResults : List Bar001) :
    invokeGetStockPrice ticker [] =
      { text := "No data available for " ++ ticker, data := none,
        ui := UINode.alert "error" ("No data available for " ++ ticker) }
    ∧ (invokeGetStockPrice ticker []).data = none
    ∧ (invokeGetStockPrice ticker []).ui.kind = "alert"
    ∧ (invokeGetStockPrice ticker []).text ≠ ""
    ∧ (invokeGetStockPrice001 ticker [] aggsResults).data = none
    ∧ (invokeGetStockPrice001 ticker [] aggsResults).ui.kind = "alert"
    ∧ (invokeGetStockPrice001 ticker [] aggsResults).text ≠ "" := by
  refine ⟨rfl, rfl, rfl, ?_, rfl, rfl, ?_⟩
  case refine_2 =>
    rw [show (invokeGetStockPrice001 ticker [] aggsResults).text
        = "TypeError: Cannot read properties of undefined (reading \x27c\x27)" from rfl]
    decide
  intro hcontra
  have hlen := congrArg String.length hcontra
  rw [show (invokeGetStockPrice ticker []).text = "No data available for " ++ ticker from rfl,
    String.length_append] at hlen
  rw [show String.length "No data available for " = 22 from rfl,
    show String.length "" = 0 from rfl] at hlen
  omega

/-- Claim C6: each omitted optional `limit` is replaced by its declared
default at handler entry, before any business logic: 5 for the news tool, 10
for the dividends tool, 5 for the splits tool; a supplied `limit` passes
through unchanged.  The resolved value is exactly what reaches the provider
request. -/
theorem optional_limit_defaults :
    (∀ t : String, getStockNewsRequest { ticker := t } = { ticker := t, limit := 5 })
    ∧ (∀ t : String, getStockDividendsRequest { ticker := t } = { ticker := t, limit := 10 })
    ∧ (∀ t : String, getStockSplitsRequest { ticker := t } = { ticker := t, limit := 5 })
    ∧ (∀ (t : String) (n : ℕ),
        getStockNewsRequest { ticker := t, limit := some n } = { ticker := t, limit := n }
        ∧ getStockDividendsRequest { ticker := t, limit := some n } = { ticker := t, limit := n }
        ∧ getStockSplitsRequest { ticker := t, limit := some n } = { ticker := t, limit := n }) :=
  ⟨fun _ => rfl, fun _ => rfl, fun _ => rfl, fun _ _ => ⟨rfl, rfl, rfl⟩⟩

/-- Claim C8: card composition `addChild A` then `addChild B` builds a node
whose children are exactly `[A, B]` in call order; `addChild` appends at the
end and `build` emits the accumulated children verbatim, so the order is
never re-sorted. -/
theorem card_addChild_order_preserved :
    (∀ A B : UINode, ((CardUIBuilder.new.addChild A).addChild B).build.children = [A, B])
    ∧ (∀ (b : CardUIBuilder) (n : UINode),
        ((b.addChild n).build).children = b.build.children ++ [n])
    ∧ (∀ b : CardUIBuilder, b.build.children = b.childrenAcc) :=
  ⟨fun _ _ => rfl, fun _ _ => rfl, fun _ => rfl⟩

/-- Claim C9: reading back the payload of a successfully built table node
yields the columns and rows unchanged, in order and content; the raw-variant
table construction (a `\x7bcolumns, rows\x7d` literal) satisfies the same
round-trip law. -/
theorem table_build_payload_roundtrip
    (cols : List Column) (rows : List Row) (node : UINode)
    (h : buildTable cols rows = Except.ok node) :
    node.tablePayload = some (cols, rows)
    ∧ (UINode.table cols rows).tablePayload = some (cols, rows) := by
  refine ⟨?_, rfl⟩
  unfold buildTable TableUIBuilder.build TableUIBuilder.addColumns TableUIBuilder.rows
    TableUIBuilder.new at h
  simp only [List.nil_append] at h
  by_cases hc : cols.isEmpty
  · rw [if_pos hc] at h
    cases h
  · rw [if_neg hc] at h
    cases h
    rfl

/-- Claim C9 witness: the round-trip at a concrete column/row pair. -/
theorem table_build_payload_roundtrip_inst :
    ∃ node, buildTable stockPriceTableColumns [[("metric", "Volume")]] = Except.ok node
      ∧ node.tablePayload = some (stockPriceTableColumns, [[("metric", "Volume")]]) :=
  ⟨UINode.table stockPriceTableColumns [[("metric", "Volume")]], rfl,
    (table_build_payload_roundtrip stockPriceTableColumns [[("metric", "Volume")]] _ rfl).1⟩

/-- Claim C1 counterexample: the claim asserts every failure outcome carries
an `alert`-kind `ui` node, but the stonks variant's widget catch-all
(`index.ts:584-591`) returns a `p` (paragraph) node: invoking the widget with
every provider call failing yields `ui.kind = "p" ≠ "alert"`. -/
theorem stonks_widget_failure_not_alert :
    (getMarketOverview
        [Except.error "Request failed with status code 403",
          Except.error "Request failed with status code 403",
          Except.error "Request failed with status code 403",
          Except.error "Request failed with status code 403"]
        (Except.error "Request failed with status code 403")).ui.kind = "p"
    ∧ ("p" : String) ≠ "alert" := by
  exact ⟨rfl, by decide⟩

/-- Claim C1 (amended): for every failure outcome of a tool or widget
invocation the returned value is still a well-formed Envelope with non-empty
human-readable `text` and `data = null`, and no raw fault crosses the
invocation boundary; tool-invocation failures (handler throw, upstream
no-data) yield an `alert`-kind `ui` node through the modelled dispatcher, and
so does the `part_000` widget catch-all, but the stonks variant's widget
catch-all — reached whenever any of its provider calls fails, index fetches
or SPY aggregates alike — returns a `p` (paragraph) node instead of an
alert. -/
theorem widget_failure_envelopes_wellformed
    (fetches : List (Except String (List PrevBar))) (spyAggs : Except String (List Bar))
    (ticker : String)
    (h : (∃ e, promiseAll fetches = Except.error e) ∨ (∃ e, spyAggs = Except.error e)) :
    (getMarketOverview fetches spyAggs = marketOverviewErrorEnvelope
      ∧ marketOverviewErrorEnvelope.text ≠ ""
      ∧ marketOverviewErrorEnvelope.data = none
      ∧ marketOverviewErrorEnvelope.ui.kind = "p")
    ∧ (marketOverviewErrorEnvelope000.text ≠ ""
      ∧ marketOverviewErrorEnvelope000.data = none
      ∧ marketOverviewErrorEnvelope000.ui.kind = "alert")
    ∧ ((invokeGetStockPrice ticker []).text ≠ ""
      ∧ (invokeGetStockPrice ticker []).data = none
      ∧ (invokeGetStockPrice ticker []).ui.kind = "alert")
    ∧ (∀ msg : String, msg ≠ "" →
        (dispatchInvoke (Except.error msg : Except String (Envelope PriceData))).text ≠ ""
        ∧ (dispatchInvoke (Except.error msg : Except String (Envelope PriceData))).data = none
        ∧ (dispatchInvoke (Except.error msg : Except String (Envelope PriceData))).ui.kind
            = "alert") := by
  refine ⟨⟨?_, by decide, rfl, rfl⟩, ⟨by decide, rfl, rfl⟩, ⟨?_, rfl, rfl⟩,
    fun msg hmsg => ⟨hmsg, rfl, rfl⟩⟩
  · unfold getMarketOverview
    rcases h with ⟨e, he⟩ | ⟨e, he⟩
    · rw [he]
      rcases spyAggs with e' | aggs <;> rfl
    · rw [he]
      rcases hpf : promiseAll fetches with e' | perIndex <;> rfl
  · intro hcontra
    have hlen := congrArg String.length hcontra
    rw [show (invokeGetStockPrice ticker []).text = "No data available for " ++ ticker from rfl,
      String.length_append] at hlen
    rw [show String.length "No data available for " = 22 from rfl,
      show String.length "" = 0 from rfl] at hlen
    omega

/-- Claim C1 witness: the amended behavior at concrete failing invocations —
in particular the widget failure where all four index fetches succeed and
only the SPY aggregates call fails, and a tool failure through the
dispatcher. -/
theorem widget_failure_envelopes_wellformed_inst :
    getMarketOverview
        [Except.ok [samplePrevBar], Except.ok [samplePrevBar], Except.ok [samplePrevBar],
          Except.ok [samplePrevBar]]
        (Except.error "Request failed with status code 429")
      = marketOverviewErrorEnvelope
    ∧ (invokeGetStockPrice "AAPL" []).ui.kind = "alert"
    ∧ (dispatchInvoke (Except.error "No data available for AAPL"
          : Except String (Envelope PriceData))).ui.kind = "alert" :=
  ⟨(widget_failure_envelopes_wellformed
      [Except.ok [samplePrevBar], Except.ok [samplePrevBar], Except.ok [samplePrevBar],
        Except.ok [samplePrevBar]]
      (Except.error "Request failed with status code 429") "AAPL"
      (Or.inr ⟨"Request failed with status code 429", rfl⟩)).1.1,
    (widget_failure_envelopes_wellformed
      [Except.ok [samplePrevBar], Except.ok [samplePrevBar], Except.ok [samplePrevBar],
        Except.ok [samplePrevBar]]
      (Except.error "Request failed with status code 429") "AAPL"
      (Or.inr ⟨"Request failed with status code 429", rfl⟩)).2.2.1.2.2,
    ((widget_failure_envelopes_wellformed
      [Except.ok [samplePrevBar], Except.ok [samplePrevBar], Except.ok [samplePrevBar],
        Except.ok [samplePrevBar]]
      (Except.error "Request failed with status code 429") "AAPL"
      (Or.inr ⟨"Request failed with status code 429", rfl⟩)).2.2.2
      "No data available for AAPL" (by decide)).2.2⟩

/-- Claim C3: the derived percent-change is the two-decimal signed rounding of
`(close - open) / open * 100` — the tool's `changePercent` string is exactly
`toFixed2` of that formula, the rounded value preserves the sign of the raw
change, and at `open = 100` the chart trend text is `"5.00% change"` for
`close = 105` and `"-5.00% change"` for `close = 95`. -/
theorem price_percent_change_formula_and_sign
    (latestData : Bar) (ho : 0 < latestData.o) :
    stockPriceChangePercentStr latestData
        = toFixed2 ((latestData.c - latestData.o) / latestData.o * 100)
    ∧ (latestData.o ≤ latestData.c →
        0 ≤ toFixed2Val ((latestData.c - latestData.o) / latestData.o * 100))
    ∧ (latestData.c ≤ latestData.o →
        toFixed2Val ((latestData.c - latestData.o) / latestData.o * 100) ≤ 0)
    ∧ (stockPriceChartData "AAPL" [bar105] bar105).trend
        = some { value := 5, text := "5.00% change" }
    ∧ (stockPriceChartData "AAPL" [bar95] bar95).trend
        = some { value := -5, text := "-5.00% change" } := by
  have val_nonneg : ∀ x : ℚ, 0 ≤ x → 0 ≤ toFixed2Val x := by
    intro x hx
    unfold toFixed2Val
    have hu := toFixed2Units_nonneg x hx
    have : (0 : ℚ) ≤ (toFixed2Units x : ℚ) := by exact_mod_cast hu
    exact div_nonneg this (by norm_num)
  have val_nonpos : ∀ x : ℚ, x ≤ 0 → toFixed2Val x ≤ 0 := by
    intro x hx
    unfold toFixed2Val
    have hu := toFixed2Units_nonpos x hx
    have : (toFixed2Units x : ℚ) ≤ (0 : ℚ) := by exact_mod_cast hu
    exact div_nonpos_iff.mpr (Or.inr ⟨this, by norm_num⟩)
  have htrend105 : (stockPriceChartData "AAPL" [bar105] bar105).trend
      = some { value := 5, text := "5.00% change" } := by
    have hX : (bar105.c - bar105.o) / bar105.o * 100 = ((500 : ℤ) : ℚ) / 100 := by
      norm_num [bar105]
    have hstr : stockPriceChangePercentStr bar105 = "5.00" := by
      unfold stockPriceChangePercentStr stockPriceChange
      rw [hX, toFixed2_intCast_div]
      rfl
    have hval : parseFloat (stockPriceChangePercentStr bar105) = 5 := by
      unfold stockPriceChangePercentStr stockPriceChange
      rw [hX, parseFloat_toFixed2, toFixed2Val_intCast_div]
      norm_num
    show some (Trend.mk (parseFloat (stockPriceChangePercentStr bar105))
        (stockPriceChangePercentStr bar105 ++ "% change"))
      = some { value := 5, text := "5.00% change" }
    rw [hval, hstr]
    rfl
  have htrend95 : (stockPriceChartData "AAPL" [bar95] bar95).trend
      = some { value := -5, text := "-5.00% change" } := by
    have hX : (bar95.c - bar95.o) / bar95.o * 100 = ((-500 : ℤ) : ℚ) / 100 := by
      norm_num [bar95]
    have hstr : stockPriceChangePercentStr bar95 = "-5.00" := by
      unfold stockPriceChangePercentStr stockPriceChange
      rw [hX, toFixed2_intCast_div]
      rfl
    have hval : parseFloat (stockPriceChangePercentStr bar95) = -5 := by
      unfold stockPriceChangePercentStr stockPriceChange
      rw [hX, parseFloat_toFixed2, toFixed2Val_intCast_div]
      norm_num
    show some (Trend.mk (parseFloat (stockPriceChangePercentStr bar95))
        (stockPriceChangePercentStr bar95 ++ "% change"))
      = some { value := -5, text := "-5.00% change" }
    rw [hval, hstr]
    rfl
  refine ⟨rfl, ?_, ?_, htrend105, htrend95⟩
  · intro hco
    apply val_nonneg
    have h1 : 0 ≤ (latestData.c - latestData.o) / latestData.o :=
      div_nonneg (by linarith) (le_of_lt ho)
    nlinarith
  · intro hco
    apply val_nonpos
    have h1 : (latestData.c - latestData.o) / latestData.o ≤ 0 :=
      div_nonpos_iff.mpr (Or.inr ⟨by linarith, le_of_lt ho⟩)
    nlinarith

/-- Claim C3 witness: the theorem applied at `bar105`. -/
theorem price_percent_change_formula_and_sign_inst :
    (0 : ℚ) < bar105.o
    ∧ (stockPriceChartData "AAPL" [bar105] bar105).trend
        = some { value := 5, text := "5.00% change" } :=
  ⟨by norm_num [bar105],
    (price_percent_change_formula_and_sign bar105 (by norm_num [bar105])).2.2.2.1⟩

/-- Claim C10: in every successful price-tool envelope the three reported
percent-change values agree: `data.changePercent` equals the two-decimal
rounding of `(close - open) / open * 100`, the chart trend carries the same
value and the same rendered string, and the envelope `text` embeds that same
rendered string. -/
theorem price_percent_values_consistent
    (ticker : String) (latestData : Bar) (rest : List Bar) (_ho : latestData.o ≠ 0) :
    ∃ env, getStockPriceHandler ticker (latestData :: rest) = Except.ok env
      ∧ ∃ pd, env.data = some pd
        ∧ pd.changePercent = toFixed2Val ((latestData.c - latestData.o) / latestData.o * 100)
        ∧ (stockPriceChartData ticker (latestData :: rest) latestData).trend
            = some (Trend.mk pd.changePercent
                (toFixed2 ((latestData.c - latestData.o) / latestData.o * 100)
                  ++ "% change"))
        ∧ env.text = ticker ++ " is trading at $" ++ toFixed2 latestData.c
            ++ ". Today\x27s change: "
            ++ toFixed2 ((latestData.c - latestData.o) / latestData.o * 100) ++ "%"
        ∧ env.ui.children.head?
            = some (UINode.chart (stockPriceChartData ticker (latestData :: rest) latestData)) := by
  refine ⟨_, rfl, _, rfl, ?_, rfl, rfl, rfl⟩
  show parseFloat (stockPriceChangePercentStr latestData) = _
  unfold stockPriceChangePercentStr stockPriceChange
  exact parseFloat_toFixed2 _

/-- Claim C10 witness: the theorem applied at the scenario bar. -/
theorem price_percent_values_consistent_inst :
    (scenarioBar 151 0).o ≠ 0
    ∧ ∃ env, getStockPriceHandler "AAPL" [scenarioBar 151 0] = Except.ok env
        ∧ ∃ pd, env.data = some pd
          ∧ pd.changePercent
              = toFixed2Val (((scenarioBar 151 0).c - (scenarioBar 151 0).o)
                  / (scenarioBar 151 0).o * 100)
          ∧ (stockPriceChartData "AAPL" [scenarioBar 151 0] (scenarioBar 151 0)).trend
              = some (Trend.mk pd.changePercent
                  (toFixed2 (((scenarioBar 151 0).c - (scenarioBar 151 0).o)
                    / (scenarioBar 151 0).o * 100) ++ "% change"))
          ∧ env.text = "AAPL" ++ " is trading at $" ++ toFixed2 (scenarioBar 151 0).c
              ++ ". Today\x27s change: "
              ++ toFixed2 (((scenarioBar 151 0).c - (scenarioBar 151 0).o)
                  / (scenarioBar 151 0).o * 100) ++ "%"
          ∧ env.ui.children.head?
              = some (UINode.chart
                  (stockPriceChartData "AAPL" [scenarioBar 151 0] (scenarioBar 151 0))) :=
  ⟨by norm_num [scenarioBar],
    price_percent_values_consistent "AAPL" (scenarioBar 151 0) [] (by norm_num [scenarioBar])⟩

/-- Claim C7 counterexample: the claim asserts the scenario-1 envelope's `ui`
root contains both a `chart` child and a `table` child, but in the `part_001`
variant the table is commented out of `ui.children` (`part_001:120-126`): at
the scenario input the children kinds are exactly `["chart"]`, with no
`table` child. -/
theorem part001_price_ui_lacks_table_child :
    (invokeGetStockPrice001 "AAPL" [scenarioPrevAgg] []).ui.children.map UINode.kind = ["chart"]
    ∧ "table" ∉ (invokeGetStockPrice001 "AAPL" [scenarioPrevAgg] []).ui.children.map UINode.kind := by
  have h : (invokeGetStockPrice001 "AAPL" [scenarioPrevAgg] []).ui.children.map UINode.kind
      = ["chart"] := rfl
  exact ⟨h, by rw [h]; decide⟩

/-- Claim C7 (amended): invoking the price tool on the scenario bar
`\x7bo:150, c:157.5, h:158, l:149, v:1000000\x7d` yields
`data.changePercent = 5.00` and a `div`/`card` root in every variant; in the
stonks variant (a `div` root) and the `part_000` variant (a `card` root) the
root's children are a `chart` and a `table` whose rows list
Volume/Open/High/Low/VWAP, while in the `part_001` variant the table child is
omitted (commented out) and the root carries only the chart child. -/
theorem price_scenario_envelope_shape (vw : ℚ) (t : ℤ) :
    (∃ env, getStockPriceHandler "AAPL" [scenarioBar vw t] = Except.ok env
      ∧ env.data.map PriceData.changePercent = some 5
      ∧ env.ui.kind = "div"
      ∧ env.ui.children.map UINode.kind = ["chart", "table"]
      ∧ (stockPriceTableRows (scenarioBar vw t)).map (fun r => r.lookup "metric")
          = [some "Volume", some "Open", some "High", some "Low", some "VWAP"])
    ∧ (∃ env, getStockPriceHandler000 "AAPL" [scenarioBar vw t] = Except.ok env
      ∧ env.data.map PriceData.changePercent = some 5
      ∧ env.ui.kind = "card"
      ∧ env.ui.children.map UINode.kind = ["chart", "table"]
      ∧ env.ui.children.get? 1
          = some (UINode.table stockPriceTableColumns000
              (stockPriceTableRows (scenarioBar vw t))))
    ∧ (∃ env, getStockPriceHandler001 "AAPL" [scenarioPrevAgg] [] = Except.ok env
      ∧ env.data.map PriceData.changePercent = some 5
      ∧ env.ui.kind = "div"
      ∧ env.ui.children.map UINode.kind = ["chart"]) := by
  have hval : parseFloat (stockPriceChangePercentStr (scenarioBar vw t)) = 5 := by
    unfold stockPriceChangePercentStr stockPriceChange
    rw [show ((scenarioBar vw t).c - (scenarioBar vw t).o) / (scenarioBar vw t).o * 100
        = ((500 : ℤ) : ℚ) / 100 by norm_num [scenarioBar]]
    rw [parseFloat_toFixed2, toFixed2Val_intCast_div]
    norm_num
  have hch : prevCloseChange scenarioPrevAgg = 7.5 := by
    simp only [prevCloseChange, scenarioPrevAgg, jsTruthy]
    norm_num
  have hval001 : parseFloat (prevCloseChangePercentStr scenarioPrevAgg) = 5 := by
    unfold prevCloseChangePercentStr
    rw [show prevCloseChange scenarioPrevAgg / changePercentDenominator scenarioPrevAgg.o * 100
        = ((500 : ℤ) : ℚ) / 100 by
      rw [hch]
      simp only [scenarioPrevAgg, changePercentDenominator]
      norm_num]
    rw [parseFloat_toFixed2, toFixed2Val_intCast_div]
    norm_num
  refine ⟨⟨_, rfl, ?_, rfl, rfl, ?_⟩, ⟨_, rfl, ?_, rfl, rfl, rfl⟩, ⟨_, rfl, ?_, rfl, rfl⟩⟩
  · show some (parseFloat (stockPriceChangePercentStr (scenarioBar vw t))) = some 5
    rw [hval]
  · rfl
  · show some (parseFloat (stockPriceChangePercentStr (scenarioBar vw t))) = some 5
    rw [hval]
  · show some (parseFloat (prevCloseChangePercentStr scenarioPrevAgg)) = some 5
    rw [hval001]

/-- The widget row rendered for a missing index lookup is exactly the
placeholder row (`N/A` price, `+$0.00` change, `+0.00%`). -/
theorem overviewRow_placeholder (name : String) :
    overviewRow (fetchIndexResult name none) = placeholderRow name := by
  have h0 : parseFloat "0.00" = 0 := by
    rw [show ("0.00" : String) = toFixed2 (((0 : ℤ) : ℚ) / 100) by
      rw [toFixed2_intCast_div]
      rfl]
    rw [parseFloat_toFixed2, toFixed2Val_intCast_div]
    norm_num
  have hL : toLocaleFixed2 (0 : ℚ) = "0.00" := by
    rw [show (0 : ℚ) = ((0 : ℤ) : ℚ) / 100 by norm_num, toLocaleFixed2_intCast_div]
    rfl
  show overviewRow (IndexResult.mk name "N/A" "0.00" "0.00" true) = placeholderRow name
  unfold overviewRow placeholderRow
  simp only [h0, hL]
  rfl

/-- Claim C5: when exactly one of the four index lookups returns no data and
the other three return data, the widget still composes the full success
envelope (a `div`, `data` present — no error path is taken), the table has
exactly 4 rows, the missing index's row is the placeholder row (`N/A` price,
zero change), and every other row is computed from its own lookup's data
alone — one missing sub-fetch aborts nothing. -/
theorem market_overview_one_missing_lookup_degrades
    (r0 r1 r2 r3 : List PrevBar) (aggs : List Bar) (j : Fin 4)
    (hempty : [r0, r1, r2, r3].get? j.val = some [])
    (hothers : ∀ k : Fin 4, k ≠ j → [r0, r1, r2, r3].get? k.val ≠ some []) :
    getMarketOverview [Except.ok r0, Except.ok r1, Except.ok r2, Except.ok r3] (Except.ok aggs)
        = marketOverviewSuccess [r0, r1, r2, r3] aggs
    ∧ (marketOverviewSuccess [r0, r1, r2, r3] aggs).data
        = some (marketOverviewResults [r0, r1, r2, r3])
    ∧ (marketOverviewSuccess [r0, r1, r2, r3] aggs).ui.kind = "div"
    ∧ (marketOverviewTableRows [r0, r1, r2, r3]).length = 4
    ∧ (marketOverviewTableRows [r0, r1, r2, r3]).get? j.val
        = some (placeholderRow (((indices.get? j.val).map Prod.snd).getD ""))
    ∧ ∀ k : Fin 4, k ≠ j →
        (marketOverviewTableRows [r0, r1, r2, r3]).get? k.val
          = some (overviewRow (fetchIndexResult (((indices.get? k.val).map Prod.snd).getD "")
              (([r0, r1, r2, r3].get? k.val).getD []).head?)) := by
  refine ⟨rfl, rfl, rfl, rfl, ?_, ?_⟩
  · fin_cases j
    · simp at hempty
      subst hempty
      show some (overviewRow (fetchIndexResult "Dow Jones" none))
        = some (placeholderRow "Dow Jones")
      rw [overviewRow_placeholder]
    · simp at hempty
      subst hempty
      show some (overviewRow (fetchIndexResult "S&P 500" none))
        = some (placeholderRow "S&P 500")
      rw [overviewRow_placeholder]
    · simp at hempty
      subst hempty
      show some (overviewRow (fetchIndexResult "NASDAQ" none))
        = some (placeholderRow "NASDAQ")
      rw [overviewRow_placeholder]
    · simp at hempty
      subst hempty
      show some (overviewRow (fetchIndexResult "Russell 2000" none))
        = some (placeholderRow "Russell 2000")
      rw [overviewRow_placeholder]
  · intro k hk
    fin_cases k <;> rfl

/-- Claim C5 witness: the theorem applied with the first lookup empty and the
other three succeeding. -/
theorem market_overview_one_missing_lookup_degrades_inst :
    ([([] : List PrevBar), [samplePrevBar], [samplePrevBar], [samplePrevBar]].get?
        ((0 : Fin 4) : Fin 4).val = some [])
    ∧ (marketOverviewTableRows
        [[], [samplePrevBar], [samplePrevBar], [samplePrevBar]]).get? ((0 : Fin 4) : Fin 4).val
        = some (placeholderRow (((indices.get? ((0 : Fin 4) : Fin 4).val).map Prod.snd).getD "")) :=
  ⟨rfl, (market_overview_one_missing_lookup_degrades [] [samplePrevBar] [samplePrevBar]
      [samplePrevBar] [] 0 rfl (by decide)).2.2.2.2.1⟩

end Stonks
